import Mathlib

/-!
Verification of the PEPPER workload-orchestration core against its
natural-language specification.

The definitions below are a shallow embedding of the Python source:

* `src/core/agent_orchestrator.py` — `TaskDependency`, `RetryStrategy`,
  `AgentOrchestrator` (`_get_ready_tasks`, `process_tasks`,
  `_execute_task_with_retry`, `_update_milestone_progress`,
  `_handle_milestone_delay`);
* `src/agents/specialized/timeline_estimation/timeline_estimator_agent.py` —
  `TimelineEstimatorAgent` (`_estimate_task_duration`, `_find_critical_path`,
  `_update_agent_throughput`);
* `src/core/feedback_system.py` — `TaskCompletion`, `FeedbackSystem`
  (`record_task_completion`, `_analyze_completion`).

Python floats are modelled as `ℚ`, `datetime` values as rational
timestamps, Python dicts as insertion-ordered association lists, and
raised exceptions as `Except` errors.
-/

set_option autoImplicit false

/-- Python exception values that the modelled code can raise. -/
inductive PyError where
  | attributeError : PyError
  | zeroDivisionError : PyError
  | transientError : PyError
  | connectionError : PyError
  | timeoutError : PyError
  | fileNotFoundError : PyError
  | permissionError : PyError
  | fatalError : PyError
  | agentError : PyError
  | nameError : PyError
  deriving DecidableEq, Repr

/-! ### Python dict model

Insertion-ordered association lists with last-write-wins assignment,
mirroring CPython dict semantics (`d[k] = v` updates in place when the
key exists, otherwise appends; iteration follows insertion order). -/

/-- Membership test for a key, as Python `k in d`. -/
def dictContains {α : Type} (d : List (String × α)) (k : String) : Bool :=
  d.any (fun p => p.1 == k)

/-- Lookup, as Python `d.get(k)`; `none` when the key is absent. -/
def dictGet {α : Type} (d : List (String × α)) (k : String) : Option α :=
  (d.find? (fun p => p.1 == k)).map (fun p => p.2)

/-- In-place update of every entry whose key is `k` (pointwise equal to
`d.map (fun p => if p.1 == k then (k, v) else p)`). -/
def replaceKey {α : Type} : List (String × α) → String → α → List (String × α)
  | [], _, _ => []
  | p :: d, k, v =>
    if p.1 == k then (k, v) :: replaceKey d k v else p :: replaceKey d k v

/-- Assignment `d[k] = v`: update in place when the key exists, else append. -/
def dictSet {α : Type} (d : List (String × α)) (k : String) (v : α) :
    List (String × α) :=
  if dictContains d k then replaceKey d k v else d ++ [(k, v)]

/-- Deletion `d.pop(k)`: remove every entry stored under key `k`. -/
def dictErase {α : Type} (d : List (String × α)) (k : String) :
    List (String × α) :=
  d.filter (fun p => !(p.1 == k))

/-- Values view `d.values()` in insertion order. -/
def dictValues {α : Type} (d : List (String × α)) : List α :=
  d.map (fun p => p.2)

/-! ### RetryStrategy (src/core/agent_orchestrator.py, lines 45-89) -/

/-- Embedding of class `RetryStrategy`: retry configuration value object. -/
structure RetryStrategy where
  max_retries : Nat := 3
  base_delay : ℚ := 1
  max_delay : ℚ := 32
  strategy : String := "exponential"
  deriving DecidableEq, Repr

/-- Embedding of `RetryStrategy.calculate_delay`.  `attempt` is the Python
int argument (the call sites always pass `attempt ≥ 1`). -/
def calculateDelay (s : RetryStrategy) (attempt : Nat) : ℚ :=
  if s.strategy = "exponential" then
    min (s.base_delay * 2 ^ (attempt - 1)) s.max_delay
  else if s.strategy = "linear" then
    min (s.base_delay * attempt) s.max_delay
  else if s.strategy = "fixed" then
    s.base_delay
  else
    min (s.base_delay * 2 ^ (attempt - 1)) s.max_delay

/-- The default `RetryStrategy()` built in `AgentOrchestrator.__init__`. -/
def defaultRetryStrategy : RetryStrategy := {}

/-! ### Agent throughput tracker
(src/agents/specialized/timeline_estimation/timeline_estimator_agent.py,
`_update_agent_throughput`, lines 489-500) -/

/-- Embedding of one entry of `self.agent_throughput` (a defaultdict whose
default value has every numeric field `0`). -/
structure AgentThroughput where
  tasks_per_minute : ℚ
  average_duration : ℚ
  total_tasks : Nat
  deriving DecidableEq, Repr

/-- The defaultdict default for `agent_throughput`. -/
def initThroughput : AgentThroughput :=
  { tasks_per_minute := 0, average_duration := 0, total_tasks := 0 }

/-- Embedding of the per-record body of `_update_agent_throughput`:
`total_tasks += 1`, `average_duration = (avg*(total_tasks-1)+duration)/total_tasks`,
`tasks_per_minute = 60/average_duration`. -/
def updateThroughput (t : AgentThroughput) (duration : ℚ) : AgentThroughput :=
  let n : Nat := t.total_tasks + 1
  let avg : ℚ := (t.average_duration * ((n : ℚ) - 1) + duration) / (n : ℚ)
  { tasks_per_minute := 60 / avg, average_duration := avg, total_tasks := n }

/-- Embedding of the loop of `_update_agent_throughput`: iterate over the
simulation's `task_completion_times` entries (a key paired with that entry's
`duration` field) and update the record stored under the key whenever the
key is present in `agent_throughput`. -/
def updateAgentThroughputAll (m : List (String × AgentThroughput))
    (entries : List (String × ℚ)) : List (String × AgentThroughput) :=
  entries.foldl
    (fun d e =>
      match dictGet d e.1 with
      | some t => dictSet d e.1 (updateThroughput t e.2)
      | none => d)
    m

/-! ### Task data model (src/core/agent_orchestrator.py, class TaskDependency) -/

/-- Embedding of the result dict attached to a processed task
(`{"status": ..., "error_type": ...}`). -/
structure TaskResult where
  status : String
  error_type : Option String := none
  deriving DecidableEq, Repr

/-- Embedding of the metadata keys the core reads from a task's open
`metadata` dict (`priority`, `complexity`, `estimated_duration`,
`milestone_id`); an absent key is `none`, matching `metadata.get(k, default)`
at the use sites. -/
structure TaskMetadata where
  priority : String := "MEDIUM"
  complexity : Option ℚ := none
  estimated_duration : Option ℚ := none
  milestone_id : Option String := none
  deriving DecidableEq, Repr

/-- Embedding of class `TaskDependency`; `status` starts `"pending"` as in
`__init__`. -/
structure TaskDependency where
  task_id : String
  agent_id : String
  description : String := ""
  depends_on : List String := []
  metadata : TaskMetadata := {}
  status : String := "pending"
  result : Option TaskResult := none
  deriving DecidableEq, Repr

/-- The mutable orchestrator state the scheduling claims touch:
`self.tasks` and `self.completed_tasks`, both Python dicts keyed by
task id. -/
structure OrchestratorState where
  tasks : List (String × TaskDependency)
  completed_tasks : List (String × TaskDependency)
  deriving DecidableEq, Repr

/-- Embedding of `AgentOrchestrator._get_ready_tasks` (lines 311-320):
iterate `self.tasks.values()`, keep tasks whose `status == "pending"` and
whose every entry of `depends_on` is a key of `self.completed_tasks`. -/
def getReadyTasks (s : OrchestratorState) : List TaskDependency :=
  (dictValues s.tasks).filter
    (fun t => t.status == "pending" &&
      t.depends_on.all (fun dep => dictContains s.completed_tasks dep))

/-! ### Attribute table of class AgentOrchestrator

Python resolves `self.name` against the instance dict and then the class
dict; an unresolved name raises `AttributeError`.  The two lists below
transcribe every attribute the source defines: the `def` names of class
`AgentOrchestrator` and the `self.*` assignments of its `__init__`. -/

/-- Method names defined (with `def`/`async def`) in class
`AgentOrchestrator` in src/core/agent_orchestrator.py. -/
def orchestratorMethodNames : List String :=
  ["__init__", "_setup_logging", "_load_config", "initialize",
   "_display_agents", "add_task", "request_agent_task", "_get_ready_tasks",
   "process_tasks", "_handle_pm_task_results", "_execute_task_with_retry",
   "_display_result", "run", "register_agent", "create_task",
   "execute_task", "_update_milestone_progress", "_handle_milestone_delay",
   "_send_milestone_notification", "_send_delay_notification",
   "get_task_status", "get_milestone_status", "get_project_metrics"]

/-- Instance attribute names assigned in `AgentOrchestrator.__init__`. -/
def orchestratorInstanceAttrs : List String :=
  ["config_path", "config_loader", "config", "agents", "router", "tasks",
   "completed_tasks", "console", "feedback_system", "milestones",
   "task_dependencies", "reverse_dependencies", "default_retry_strategy",
   "transient_errors"]

/-- Python attribute lookup on an `AgentOrchestrator` instance succeeds
exactly when the name is an instance attribute or a class method. -/
def hasOrchestratorAttr (name : String) : Bool :=
  orchestratorInstanceAttrs.contains name || orchestratorMethodNames.contains name

/-- Module-level names of src/core/agent_orchestrator.py that are bound
at runtime: the plain imports (lines 3-14), the runtime imports
(lines 26-27) and the module's own top-level classes.  The names
imported under `if TYPE_CHECKING:` (lines 17-23) exist for the type
checker only and are unbound at runtime. -/
def orchestratorModuleGlobals : List String :=
  ["os", "yaml", "asyncio", "time", "uuid", "json", "Dict", "Any", "List",
   "Type", "Optional", "Set", "TYPE_CHECKING", "logger", "Console",
   "Panel", "Table", "datetime", "TransientError", "FatalError",
   "PEPPERError", "AgentError", "record_metric", "TaskDependency",
   "RetryStrategy", "AgentOrchestrator"]

/-- Names imported only under `if TYPE_CHECKING:` (lines 17-23) and not
re-imported at runtime: a runtime reference to any of them raises
`NameError`. -/
def orchestratorTypeCheckingOnly : List String :=
  ["ConfigLoader", "BaseAgentConfig", "AGENT_CONFIG_TYPES", "Task",
   "BaseAgent", "TaskRouter", "FeedbackSystem", "TaskCompletion",
   "MilestoneStatus"]

/-- Python module-global resolution in agent_orchestrator.py: a name
evaluates successfully at runtime exactly when it is bound in the
module namespace. -/
def hasOrchestratorModuleGlobal (name : String) : Bool :=
  orchestratorModuleGlobals.contains name

/-! ### Retry execution (src/core/agent_orchestrator.py, lines 437-546) -/

/-- Terminal outcome of `_execute_task_with_retry`: the returned dict is
either the agent's own result (success), or an error dict with
`error_type` `"fatal"` or `"max_retries_exceeded"`. -/
inductive RetryOutcome where
  | success : TaskResult → RetryOutcome
  | fatal : PyError → RetryOutcome
  | maxRetriesExceeded : PyError → RetryOutcome
  deriving DecidableEq, Repr

/-- Observable trace of a retry execution: its terminal outcome, the
attempt number at termination (equal to the number of `run_task` calls
when started at attempt 1), and the backoff sleeps performed. -/
structure RetryTrace where
  outcome : RetryOutcome
  attempts : Nat
  delays : List ℚ
  deriving DecidableEq, Repr

/-- Modelled from the spec: `_get_retry_count` is invoked by
`_execute_task_with_retry` but defined nowhere in the repository.  Per the
spec ("classify(error) -> {Transient, Fatal}: table-driven; unknown error
types default to Fatal") and the `transient_errors` table built in
`AgentOrchestrator.__init__` (TransientError, ConnectionError,
TimeoutError map to 3; FileNotFoundError, PermissionError map to 1), this
returns the retry ceiling for an error, with 0 meaning Fatal. -/
def getRetryCount : PyError → Nat
  | PyError.transientError => 3
  | PyError.connectionError => 3
  | PyError.timeoutError => 3
  | PyError.fileNotFoundError => 1
  | PyError.permissionError => 1
  | _ => 0

theorem getRetryCount_le_three (e : PyError) : getRetryCount e ≤ 3 := by
  cases e <;> simp [getRetryCount]

/-- Modelled from the spec: the body of `_execute_task_with_retry`
(lines 444-546) as it would run if the missing helpers existed.
`runTask attempt` is the outcome of `self.agents[agent_id].run_task(task)`
on that attempt.  On success the agent result is returned; on an
exception, a zero retry ceiling means immediate fatal failure, an attempt
number within the ceiling sleeps `calculate_delay(attempt)` and recurses
with `attempt + 1`, and otherwise the task fails with
`"max_retries_exceeded"` reporting the terminal attempt number. -/
def executeRetryModelled (strategy : RetryStrategy)
    (runTask : Nat → Except PyError TaskResult) (attempt : Nat) : RetryTrace :=
  match runTask attempt with
  | Except.ok r =>
    { outcome := RetryOutcome.success r, attempts := attempt, delays := [] }
  | Except.error e =>
    if getRetryCount e = 0 then
      { outcome := RetryOutcome.fatal e, attempts := attempt, delays := [] }
    else if h : attempt ≤ getRetryCount e then
      let rest := executeRetryModelled strategy runTask (attempt + 1)
      { outcome := rest.outcome, attempts := rest.attempts,
        delays := calculateDelay strategy attempt :: rest.delays }
    else
      { outcome := RetryOutcome.maxRetriesExceeded e, attempts := attempt,
        delays := [] }
termination_by 4 - attempt
decreasing_by
  have := getRetryCount_le_three e
  omega

/-- Result of looking up `self._get_retry_strategy`: the name is absent
from the class, so the lookup yields `none`.  (Had it existed, per the
spec it would map an agent id to its configured strategy, defaulting to
`self.default_retry_strategy`.) -/
def getRetryStrategyAttr : Option (String → RetryStrategy) :=
  if hasOrchestratorAttr "_get_retry_strategy" then
    some (fun _ => defaultRetryStrategy)
  else
    none

/-- Result of looking up `self._get_retry_count`: the name is absent from
the class, so the lookup yields `none`. -/
def getRetryCountAttr : Option (PyError → Nat) :=
  if hasOrchestratorAttr "_get_retry_count" then some getRetryCount else none

/-- Embedding of `AgentOrchestrator._execute_task_with_retry`
(lines 437-546).  The first statement of the body,
`strategy = self._get_retry_strategy(agent_id)`, sits outside the `try`,
so a failed lookup raises `AttributeError` out of the call; the lookup of
`self._get_retry_count` happens inside the `except` clause.  The retry
branch (reachable only if both lookups succeed, which they never do) is
the modelled body `executeRetryModelled`. -/
def executeTaskWithRetry (agentId : String)
    (runTask : Nat → Except PyError TaskResult) (attempt : Nat) :
    Except PyError RetryTrace :=
  match getRetryStrategyAttr with
  | none => Except.error PyError.attributeError
  | some getStrat =>
    match runTask attempt with
    | Except.ok r =>
      Except.ok { outcome := RetryOutcome.success r, attempts := attempt,
                  delays := [] }
    | Except.error _ =>
      match getRetryCountAttr with
      | none => Except.error PyError.attributeError
      | some _ =>
        Except.ok (executeRetryModelled (getStrat agentId) runTask attempt)

/-- The result dict produced by a completed `_execute_task_with_retry`
call, as read by `process_tasks`. -/
def traceResult : RetryTrace → TaskResult
  | { outcome := RetryOutcome.success r, .. } => r
  | { outcome := RetryOutcome.fatal _, .. } =>
    { status := "error", error_type := some "fatal" }
  | { outcome := RetryOutcome.maxRetriesExceeded _, .. } =>
    { status := "error", error_type := some "max_retries_exceeded" }

/-- Embedding of the known-agent dispatch of one ready task in
`process_tasks` (lines 341-402).  The loop first evaluates
`task_obj = Task(task_id=...)` (line 341), a module-global lookup of
`Task` — a name bound only under `if TYPE_CHECKING:` — so at runtime the
construction raises an uncaught `NameError` before the `try` (line 349)
and nothing below it runs.  The guarded branch embeds what the body
would do if `Task` were bound: run `_execute_task_with_retry`; on a
normal return set status `"completed"` when the result status is
`"success"` and `"failed"` otherwise; on a raised exception set status
`"failed"` with result `{"status": "error", "error_type":
"processing_error"}`; either way pop the task from `self.tasks` into
`self.completed_tasks`.  (In that unreachable branch the later
`TaskCompletion(...)` constructions, whose name is also
TYPE_CHECKING-only, are modelled as succeeding.) -/
def dispatchTask (s : OrchestratorState)
    (runTask : Nat → Except PyError TaskResult) (t : TaskDependency) :
    Except PyError OrchestratorState :=
  if hasOrchestratorModuleGlobal "Task" then
    match executeTaskWithRetry t.agent_id runTask 1 with
    | Except.ok trace =>
      let r := traceResult trace
      let t' := { t with
        status := if r.status == "success" then "completed" else "failed",
        result := some r }
      Except.ok { tasks := dictErase s.tasks t.task_id,
                  completed_tasks := dictSet s.completed_tasks t.task_id t' }
    | Except.error _ =>
      let t' := { t with
        status := "failed",
        result := some { status := "error",
                         error_type := some "processing_error" } }
      Except.ok { tasks := dictErase s.tasks t.task_id,
                  completed_tasks := dictSet s.completed_tasks t.task_id t' }
  else
    Except.error PyError.nameError

/-- Embedding of one iteration of the `while self.tasks` loop of
`process_tasks` (lines 326-402): compute the ready list once, then for
each ready task skip it (`continue`, lines 337-339) when its `agent_id`
is not a key of `self.agents`, and otherwise dispatch it; an uncaught
exception from the dispatch (the `NameError` at the `Task`
construction) aborts the whole pass. -/
def processReadyPass (agents : List String)
    (runTask : Nat → Except PyError TaskResult) (s : OrchestratorState) :
    Except PyError OrchestratorState :=
  (getReadyTasks s).foldlM
    (fun acc t =>
      if agents.contains t.agent_id then dispatchTask acc runTask t
      else Except.ok acc)
    s

/-- Repeated `process_tasks` passes: the loop keeps iterating on the
successor state, and an uncaught exception ends the run. -/
def processReadyPassIter (agents : List String)
    (runTask : Nat → Except PyError TaskResult) :
    Nat → OrchestratorState → Except PyError OrchestratorState
  | 0, s => Except.ok s
  | n + 1, s =>
    match processReadyPass agents runTask s with
    | Except.ok next => processReadyPassIter agents runTask n next
    | Except.error e => Except.error e

/-! ### Milestone tracking (src/core/agent_orchestrator.py, lines 680-754) -/

/-- Embedding of one entry of `milestone.tasks`
(`{"task_id": ..., "description": ..., "completed": ...}`). -/
structure MilestoneTask where
  task_id : String
  completed : Bool
  deriving DecidableEq, Repr

/-- Embedding of the pydantic model `MilestoneStatus`
(src/core/feedback_system.py); datetimes are rational timestamps. -/
structure MilestoneStatus where
  milestone_id : String
  name : String := ""
  estimated_completion : ℚ
  actual_completion : Option ℚ := none
  status : String
  tasks : List MilestoneTask
  progress : ℚ := 0
  delay_reason : Option String := none
  deriving DecidableEq, Repr

/-- Embedding of `AgentOrchestrator._handle_milestone_delay`
(lines 731-754): it sets `milestone.status = "delayed"`, sends a delay
notification carrying `delayReason` (external, not modelled) and rewrites
the milestone file; it never assigns `milestone.delay_reason`. -/
def handleMilestoneDelay (m : MilestoneStatus) (delayReason : String) :
    MilestoneStatus :=
  let _ := delayReason
  { m with status := "delayed" }

/-- Embedding of `AgentOrchestrator._update_milestone_progress`
(lines 680-729) for a milestone found in `self.milestones`; `now` is
`datetime.now()`.  The source converts `milestone.estimated_completion`
with `datetime.fromisoformat` before comparing against `now`; that
conversion is modelled as the identity on the timestamp (on the actual
pydantic `datetime` field it would raise `TypeError`, a further
divergence noted where this definition is used).  Progress is on the
0-100 percent scale, as in the source. -/
def updateMilestoneProgress (m : MilestoneStatus) (now : ℚ) :
    MilestoneStatus :=
  let total := m.tasks.length
  let completedCount := (m.tasks.filter (fun t => t.completed)).length
  let progress : ℚ :=
    if total > 0 then (completedCount : ℚ) / (total : ℚ) * 100 else 0
  let m1 :=
    if progress < 50 ∧ m.estimated_completion < now then
      handleMilestoneDelay m "Tasks taking longer than estimated"
    else m
  let m2 :=
    if progress = 100 then
      { m1 with status := "completed", actual_completion := some now }
    else if progress > 0 then
      { m1 with status := "in_progress" }
    else
      { m1 with status := "pending" }
  { m2 with progress := progress }

/-! ### Timeline estimation
(src/agents/specialized/timeline_estimation/timeline_estimator_agent.py) -/

/-- Python `max` of two rationals (the larger argument). -/
def pyMax2 (a b : ℚ) : ℚ := if a ≤ b then b else a

/-- Embedding of Python `max(...)` over a nonempty sequence of rationals;
every call site guards against the empty sequence. -/
def pyMax : List ℚ → ℚ
  | [] => 0
  | x :: xs => xs.foldl pyMax2 x

/-- Embedding of `TimelineEstimatorAgent._estimate_task_duration`
(lines 242-256): `self.agent_throughput[agent_id]` is a defaultdict
access, base duration is `60 / tasks_per_minute` when positive and `5.0`
otherwise, scaled by `complexity / 5` with complexity defaulting to 5. -/
def estimateTaskDuration (throughput : List (String × AgentThroughput))
    (t : TaskDependency) : ℚ :=
  let tp := (dictGet throughput t.agent_id).getD initThroughput
  let base := if tp.tasks_per_minute > 0 then 60 / tp.tasks_per_minute else 5
  base * ((t.metadata.complexity.getD 5) / 5)

/-- Embedding of the `earliest_completion` loop of
`TimelineEstimatorAgent._find_critical_path` (lines 217-229): iterate the
queue in order; a task with no dependencies gets its own estimate, any
other task gets `max(earliest_completion.get(dep, 0) for dep in
depends_on)` plus its own estimate. -/
def computeEarliest (throughput : List (String × AgentThroughput))
    (queue : List TaskDependency) : List (String × ℚ) :=
  queue.foldl
    (fun ec t =>
      let v :=
        if t.depends_on.isEmpty then
          estimateTaskDuration throughput t
        else
          pyMax (t.depends_on.map (fun d => (dictGet ec d).getD 0)) +
            estimateTaskDuration throughput t
      dictSet ec t.task_id v)
    []

/-- Embedding of `TimelineEstimatorAgent._find_critical_path`
(lines 210-240): after computing `earliest_completion`, the result is the
list of ids of the queue tasks whose `earliest_completion` value equals
the maximum over all values, in queue order.  (The `graph` defaultdict
built at the top of the source function is never read afterwards and is
omitted.) -/
def findCriticalPath (throughput : List (String × AgentThroughput))
    (queue : List TaskDependency) : List String :=
  let ec := computeEarliest throughput queue
  let maxCompletion := pyMax (dictValues ec)
  (queue.filter (fun t => dictGet ec t.task_id == some maxCompletion)).map
    (fun t => t.task_id)

/-! ### Feedback system (src/core/feedback_system.py) -/

/-- Embedding of the fields of the pydantic model `TaskCompletion` that
the analysed claims read. -/
structure TaskCompletion where
  task_id : String
  agent_id : String
  estimated_duration : ℚ
  actual_duration : ℚ
  complexity : ℚ := 5
  success : Bool
  deriving DecidableEq, Repr

/-- The two numeric fields computed by `FeedbackSystem._analyze_completion`
(the LLM-produced `patterns`/`recommendations` fields are external). -/
structure CompletionAnalysis where
  time_difference : ℚ
  accuracy_percentage : ℚ
  deriving DecidableEq, Repr

/-- Embedding of `FeedbackSystem._analyze_completion` (lines 80-94):
`accuracy_percentage = 1 - abs(actual - estimated) / estimated` with no
guard, so a zero `estimated_duration` raises `ZeroDivisionError`. -/
def analyzeCompletion (c : TaskCompletion) :
    Except PyError CompletionAnalysis :=
  let td := c.actual_duration - c.estimated_duration
  if c.estimated_duration = 0 then
    Except.error PyError.zeroDivisionError
  else
    Except.ok { time_difference := td,
                accuracy_percentage := 1 - |td| / c.estimated_duration }

/-- Embedding of `FeedbackSystem.record_task_completion` (lines 55-78):
the completion is saved (file IO, not modelled), then analysed; an
exception from the analysis is logged and re-raised. -/
def recordTaskCompletion (c : TaskCompletion) :
    Except PyError CompletionAnalysis :=
  match analyzeCompletion c with
  | Except.error e => Except.error e
  | Except.ok a => Except.ok a

/-- Embedding of the `TaskCompletion` construction in the failure branch
of `AgentOrchestrator.process_tasks` (lines 466-480 follow the same
pattern in `_execute_task_with_retry`): `estimated_duration` is
`task.metadata.get("estimated_duration", 0)` and `complexity` is
`task.metadata.get("complexity", 5)`. -/
def mkFailedCompletion (t : TaskDependency) (actualDuration : ℚ) :
    TaskCompletion :=
  { task_id := t.task_id,
    agent_id := t.agent_id,
    estimated_duration := t.metadata.estimated_duration.getD 0,
    actual_duration := actualDuration,
    complexity := t.metadata.complexity.getD 5,
    success := false }


/-! ### Lemmas about the dict model -/

theorem dictContains_eq_isSome {α : Type} (d : List (String × α))
    (k : String) : dictContains d k = (dictGet d k).isSome := by
  induction d with
  | nil => rfl
  | cons p d ih =>
    simp only [dictContains, dictGet, List.any_cons, List.find?_cons] at ih ⊢
    cases hp : (p.1 == k) with
    | true => simp
    | false => simpa using ih

theorem find?_replaceKey {α : Type} (d : List (String × α)) (k : String)
    (v : α) :
    List.find? (fun p => p.1 == k) (replaceKey d k v) =
      if dictContains d k then some (k, v) else none := by
  induction d with
  | nil => simp [replaceKey, dictContains]
  | cons p d ih =>
    cases hp : (p.1 == k) with
    | true => simp [replaceKey, dictContains, List.find?_cons, hp]
    | false =>
      simp [replaceKey, dictContains, List.find?_cons, hp, ih]
      rw [hp, Bool.false_or]

theorem find?_appendSingle {α : Type} (d : List (String × α)) (k : String)
    (v : α) (h : dictContains d k = false) :
    List.find? (fun p => p.1 == k) (d ++ [(k, v)]) = some (k, v) := by
  induction d with
  | nil => simp [List.find?_cons]
  | cons p d ih =>
    simp only [dictContains, List.any_cons, Bool.or_eq_false_iff] at h
    simpa [List.find?_cons, h.1] using ih h.2

theorem find?_ne_replaceKey {α : Type} (d : List (String × α))
    (a k : String) (v : α) (h : a ≠ k) :
    List.find? (fun p => p.1 == a) (replaceKey d k v) =
      List.find? (fun p => p.1 == a) d := by
  have hka : (k == a) = false := by
    simp only [beq_eq_false_iff_ne, ne_eq]
    exact Ne.symm h
  induction d with
  | nil => rfl
  | cons p d ih =>
    cases hp : (p.1 == k) with
    | true =>
      have hpk : p.1 = k := by simpa using hp
      have hpa : (p.1 == a) = false := by
        rw [hpk]
        exact hka
      simp [replaceKey, List.find?_cons, hp, hpa, hka, ih]
    | false => simp [replaceKey, List.find?_cons, hp, ih]

theorem find?_ne_appendSingle {α : Type} (d : List (String × α))
    (a k : String) (v : α) (h : a ≠ k) :
    List.find? (fun p => p.1 == a) (d ++ [(k, v)]) =
      List.find? (fun p => p.1 == a) d := by
  have hka : (k == a) = false := by
    simp only [beq_eq_false_iff_ne, ne_eq]
    exact Ne.symm h
  induction d with
  | nil => simp [List.find?_cons, hka]
  | cons p d ih =>
    cases hp : (p.1 == a) with
    | true => simp [List.find?_cons, hp]
    | false => simp [List.find?_cons, hp, ih]

theorem dictGet_dictSet_self {α : Type} (d : List (String × α))
    (k : String) (v : α) : dictGet (dictSet d k v) k = some v := by
  cases hc : dictContains d k with
  | true =>
    simp only [dictGet, dictSet, hc, if_true, find?_replaceKey]
    simp [hc]
  | false =>
    simp only [dictGet, dictSet, hc, if_false, Bool.false_eq_true,
      find?_appendSingle d k v hc]
    rfl

theorem dictGet_dictSet_ne {α : Type} (d : List (String × α))
    (a k : String) (v : α) (h : a ≠ k) :
    dictGet (dictSet d k v) a = dictGet d a := by
  cases hc : dictContains d k with
  | true =>
    simp only [dictGet, dictSet, hc, if_true, find?_ne_replaceKey d a k v h]
  | false =>
    simp only [dictGet, dictSet, hc, if_false, Bool.false_eq_true,
      find?_ne_appendSingle d a k v h]

theorem dictContains_dictSet_self {α : Type} (d : List (String × α))
    (k : String) (v : α) : dictContains (dictSet d k v) k = true := by
  rw [dictContains_eq_isSome, dictGet_dictSet_self]
  rfl

/-! ### Throughput fold lemmas -/

theorem foldThroughput_total (ds : List ℚ) :
    ∀ t : AgentThroughput,
      (ds.foldl updateThroughput t).total_tasks = t.total_tasks + ds.length := by
  induction ds with
  | nil => intro t; simp
  | cons d ds ih =>
    intro t
    rw [List.foldl_cons, ih]
    simp only [updateThroughput, List.length_cons]
    omega

theorem foldThroughput_sum (ds : List ℚ) :
    ∀ t : AgentThroughput,
      (ds.foldl updateThroughput t).average_duration *
          (((ds.foldl updateThroughput t).total_tasks : ℚ)) =
        t.average_duration * (t.total_tasks : ℚ) + ds.sum := by
  induction ds with
  | nil => intro t; simp
  | cons d ds ih =>
    intro t
    rw [List.foldl_cons, ih]
    have hn : ((t.total_tasks : ℚ) + 1) ≠ 0 := by positivity
    have step : (updateThroughput t d).average_duration *
        (((updateThroughput t d).total_tasks : ℚ)) =
        t.average_duration * (t.total_tasks : ℚ) + d := by
      simp only [updateThroughput]
      push_cast
      rw [div_mul_cancel₀ _ hn]
      ring
    rw [step, List.sum_cons]
    ring

theorem foldThroughput_tpm (ds : List ℚ) :
    ∀ t : AgentThroughput,
      t.tasks_per_minute = 60 / t.average_duration →
      (ds.foldl updateThroughput t).tasks_per_minute =
        60 / (ds.foldl updateThroughput t).average_duration := by
  induction ds with
  | nil => intro t h; simpa using h
  | cons d ds ih =>
    intro t _
    rw [List.foldl_cons]
    exact ih (updateThroughput t d) rfl

theorem updateAll_lookup (entries : List (String × ℚ)) :
    ∀ (m : List (String × AgentThroughput)) (a : String) (t0 : AgentThroughput),
      dictGet m a = some t0 →
      dictGet (updateAgentThroughputAll m entries) a =
        some (((entries.filter (fun e => e.1 == a)).map (fun e => e.2)).foldl
          updateThroughput t0) := by
  induction entries with
  | nil => intro m a t0 h; simpa [updateAgentThroughputAll] using h
  | cons e es ih =>
    intro m a t0 h
    by_cases hea : e.1 = a
    · have hm : dictGet m e.1 = some t0 := by rw [hea]; exact h
      have hstep : updateAgentThroughputAll m (e :: es) =
          updateAgentThroughputAll (dictSet m e.1 (updateThroughput t0 e.2)) es := by
        simp [updateAgentThroughputAll, hm]
      rw [hstep]
      have hget : dictGet (dictSet m e.1 (updateThroughput t0 e.2)) a =
          some (updateThroughput t0 e.2) := by
        rw [hea]; exact dictGet_dictSet_self _ _ _
      rw [ih _ a (updateThroughput t0 e.2) hget]
      simp [List.filter_cons, hea]
    · have hstep : updateAgentThroughputAll m (e :: es) =
          updateAgentThroughputAll
            (match dictGet m e.1 with
             | some t => dictSet m e.1 (updateThroughput t e.2)
             | none => m) es := by
        simp [updateAgentThroughputAll]
      rw [hstep]
      have hpres : dictGet
          (match dictGet m e.1 with
           | some t => dictSet m e.1 (updateThroughput t e.2)
           | none => m) a = some t0 := by
        cases hm : dictGet m e.1 with
        | none => simpa using h
        | some t' =>
          simpa [dictGet_dictSet_ne m a e.1 _ (fun hh => hea hh.symm)] using h
      rw [ih _ a t0 hpres]
      have : (e.1 == a) = false := by
        simp only [beq_eq_false_iff_ne, ne_eq]
        exact hea
      simp [List.filter_cons, this]

/-- Claim C7: after N recorded completions for an agent, the agent record
maintained by `_update_agent_throughput` holds `total_tasks = N`, an
`average_duration` equal to the arithmetic mean of the N recorded
durations (kept incrementally as `avg' = (avg*(n-1)+d)/n`), and
`tasks_per_minute = 60 / average_duration`; and the full loop over the
completion entries applies exactly this fold to the record stored under
the matching key. -/
theorem claim_c7 (ds : List ℚ) :
    ((ds.foldl updateThroughput initThroughput).total_tasks = ds.length) ∧
    ((ds.foldl updateThroughput initThroughput).average_duration =
      ds.sum / (ds.length : ℚ)) ∧
    ((ds.foldl updateThroughput initThroughput).tasks_per_minute =
      60 / (ds.foldl updateThroughput initThroughput).average_duration) ∧
    (∀ (m : List (String × AgentThroughput)) (entries : List (String × ℚ))
        (a : String),
      dictGet m a = some initThroughput →
      dictGet (updateAgentThroughputAll m entries) a =
        some (((entries.filter (fun e => e.1 == a)).map (fun e => e.2)).foldl
          updateThroughput initThroughput)) := by
  have htot : (ds.foldl updateThroughput initThroughput).total_tasks =
      ds.length := by
    rw [foldThroughput_total]
    simp [initThroughput]
  refine ⟨htot, ?_, ?_, ?_⟩
  · have hs := foldThroughput_sum ds initThroughput
    rw [htot] at hs
    have h0 : initThroughput.average_duration *
        ((initThroughput.total_tasks : ℚ)) = 0 := by
      simp [initThroughput]
    rw [h0, zero_add] at hs
    rcases Nat.eq_zero_or_pos ds.length with hz | hp
    · rcases List.eq_nil_of_length_eq_zero hz with rfl
      simp [initThroughput]
    · have hne : ((ds.length : ℚ)) ≠ 0 := by
        exact_mod_cast Nat.pos_iff_ne_zero.mp hp
      rw [eq_div_iff hne]
      exact hs
  · exact foldThroughput_tpm ds initThroughput (by simp [initThroughput])
  · intro m entries a h
    exact updateAll_lookup entries m a initThroughput h

/-- Witness for claim C7 at the concrete durations `[2, 4]` and a
concrete throughput map, discharging the lookup hypothesis. -/
theorem claim_c7_witness :
    ((([2, 4] : List ℚ).foldl updateThroughput initThroughput).average_duration =
      ([2, 4] : List ℚ).sum / ((([2, 4] : List ℚ).length : ℚ))) ∧
    (dictGet (updateAgentThroughputAll [("a1", initThroughput)]
        [("a1", (2 : ℚ)), ("t9", 9), ("a1", 4)]) "a1" =
      some ((([("a1", (2 : ℚ)), ("t9", 9), ("a1", 4)].filter
          (fun e => e.1 == "a1")).map (fun e => e.2)).foldl
        updateThroughput initThroughput)) :=
  ⟨(claim_c7 [2, 4]).2.1,
   (claim_c7 []).2.2.2 [("a1", initThroughput)]
     [("a1", (2 : ℚ)), ("t9", 9), ("a1", 4)] "a1" rfl⟩

/-- Claim C9: under the `exponential` and `linear` strategies the
computed delay is non-decreasing in the attempt number (the `min` cap
keeps later delays at `max_delay`), and under `fixed` the delay is the
same for all attempts; `base_delay` is a duration, taken non-negative. -/
theorem claim_c9 (s : RetryStrategy) (hb : 0 ≤ s.base_delay) :
    (∀ n : Nat, 1 ≤ n →
      (s.strategy = "exponential" ∨ s.strategy = "linear") →
      calculateDelay s n ≤ calculateDelay s (n + 1)) ∧
    (s.strategy = "fixed" →
      ∀ n m : Nat, calculateDelay s n = calculateDelay s m) := by
  constructor
  · intro n _ hstrat
    rcases hstrat with h | h
    · simp only [calculateDelay, h, if_true]
      refine min_le_min ?_ le_rfl
      refine mul_le_mul_of_nonneg_left ?_ hb
      refine pow_le_pow_right₀ (by norm_num) ?_
      omega
    · have hne : s.strategy ≠ "exponential" := by rw [h]; decide
      simp only [calculateDelay, h, hne, if_false, if_true]
      refine min_le_min ?_ le_rfl
      refine mul_le_mul_of_nonneg_left ?_ hb
      exact_mod_cast Nat.le_succ n
  · intro h n m
    have h1 : s.strategy ≠ "exponential" := by rw [h]; decide
    have h2 : s.strategy ≠ "linear" := by rw [h]; decide
    simp [calculateDelay, h, h1, h2]

/-- Witness for claim C9 at the default strategy (exponential,
`base_delay = 1`) and attempt 1. -/
theorem claim_c9_witness :
    calculateDelay defaultRetryStrategy 1 ≤ calculateDelay defaultRetryStrategy 2 :=
  (claim_c9 defaultRetryStrategy zero_le_one).1 1 (le_refl 1) (Or.inl rfl)

/-! ### Division-by-zero in the feedback analysis (claim C10) -/

/-- Claim C10: a `TaskCompletion` with `estimated_duration = 0` makes
`record_task_completion` raise `ZeroDivisionError` through the unguarded
accuracy division of `_analyze_completion`, and the orchestrator's own
`TaskCompletion` construction yields `estimated_duration = 0` whenever
the task metadata omits the key, so the input is reachable. -/
theorem claim_c10 :
    (∀ c : TaskCompletion, c.estimated_duration = 0 →
      recordTaskCompletion c = Except.error PyError.zeroDivisionError) ∧
    (∀ (t : TaskDependency) (a : ℚ), t.metadata.estimated_duration = none →
      (mkFailedCompletion t a).estimated_duration = 0) := by
  constructor
  · intro c h
    simp [recordTaskCompletion, analyzeCompletion, h]
  · intro t a h
    simp [mkFailedCompletion, h]

/-- Witness for claim C10 at a concrete completion with
`estimated_duration = 0` and a concrete task with no
`estimated_duration` metadata. -/
theorem claim_c10_witness :
    recordTaskCompletion
        { task_id := "t1", agent_id := "a1", estimated_duration := 0,
          actual_duration := 3, success := false } =
      Except.error PyError.zeroDivisionError ∧
    (mkFailedCompletion { task_id := "t1", agent_id := "a1" } 3).estimated_duration
      = 0 :=
  ⟨claim_c10.1 _ rfl, claim_c10.2 { task_id := "t1", agent_id := "a1" } 3 rfl⟩

/-! ### Missing retry helpers (claims C2 and C3) -/

theorem getRetryStrategyAttr_eq_none : getRetryStrategyAttr = none := by
  rfl

theorem executeTaskWithRetry_attributeError (agentId : String)
    (runTask : Nat → Except PyError TaskResult) (attempt : Nat) :
    executeTaskWithRetry agentId runTask attempt =
      Except.error PyError.attributeError := by
  simp [executeTaskWithRetry, getRetryStrategyAttr_eq_none]

/-- Claim C2 (divergence witness and intended behavior): the actual
`_execute_task_with_retry` raises `AttributeError` on a task whose
execution would raise `TransientError` on every attempt, so no attempt is
made; under the spec-modelled retry body with the default strategy
(`max_retries = 3`, `base_delay = 1`, exponential), the same task is
attempted 4 times with sleeps `[1, 2, 4]` and then fails terminally with
`"max_retries_exceeded"`, while an error with retry ceiling 0 (Fatal)
fails terminally on attempt 1 with no sleeps. -/
theorem claim_c2 :
    executeTaskWithRetry "test_agent"
        (fun _ => Except.error PyError.transientError) 1 =
      Except.error PyError.attributeError ∧
    executeRetryModelled defaultRetryStrategy
        (fun _ => Except.error PyError.transientError) 1 =
      { outcome := RetryOutcome.maxRetriesExceeded PyError.transientError,
        attempts := 4, delays := [1, 2, 4] } ∧
    executeRetryModelled defaultRetryStrategy
        (fun _ => Except.error PyError.fatalError) 1 =
      { outcome := RetryOutcome.fatal PyError.fatalError,
        attempts := 1, delays := [] } := by
  have d1 : calculateDelay defaultRetryStrategy 1 = 1 := by
    norm_num [calculateDelay, defaultRetryStrategy]
  have d2 : calculateDelay defaultRetryStrategy 2 = 2 := by
    norm_num [calculateDelay, defaultRetryStrategy]
  have d3 : calculateDelay defaultRetryStrategy 3 = 4 := by
    norm_num [calculateDelay, defaultRetryStrategy]
  have h4 : executeRetryModelled defaultRetryStrategy
      (fun _ => Except.error PyError.transientError) 4 =
      { outcome := RetryOutcome.maxRetriesExceeded PyError.transientError,
        attempts := 4, delays := [] } := by
    rw [executeRetryModelled.eq_def]
    norm_num [getRetryCount]
  have h3 : executeRetryModelled defaultRetryStrategy
      (fun _ => Except.error PyError.transientError) 3 =
      { outcome := RetryOutcome.maxRetriesExceeded PyError.transientError,
        attempts := 4, delays := [4] } := by
    rw [executeRetryModelled.eq_def]
    norm_num [getRetryCount, h4, d3]
  have h2 : executeRetryModelled defaultRetryStrategy
      (fun _ => Except.error PyError.transientError) 2 =
      { outcome := RetryOutcome.maxRetriesExceeded PyError.transientError,
        attempts := 4, delays := [2, 4] } := by
    rw [executeRetryModelled.eq_def]
    norm_num [getRetryCount, h3, d2]
  have h1 : executeRetryModelled defaultRetryStrategy
      (fun _ => Except.error PyError.transientError) 1 =
      { outcome := RetryOutcome.maxRetriesExceeded PyError.transientError,
        attempts := 4, delays := [1, 2, 4] } := by
    rw [executeRetryModelled.eq_def]
    norm_num [getRetryCount, h2, d1]
  have hf : executeRetryModelled defaultRetryStrategy
      (fun _ => Except.error PyError.fatalError) 1 =
      { outcome := RetryOutcome.fatal PyError.fatalError,
        attempts := 1, delays := [] } := by
    rw [executeRetryModelled.eq_def]
    norm_num [getRetryCount]
  exact ⟨executeTaskWithRetry_attributeError _ _ _, h1, hf⟩

/-! ### Ready-set behavior after a terminal failure (claims C1, C5, C8) -/

/-- Concrete agent behavior raising `TransientError` on every attempt. -/
def runTransient : Nat → Except PyError TaskResult :=
  fun _ => Except.error PyError.transientError

/-- Task A of the two-task scenario: no dependencies. -/
def taskA1 : TaskDependency := { task_id := "A", agent_id := "agent1" }

/-- Task B of the two-task scenario: depends on A. -/
def taskB1 : TaskDependency :=
  { task_id := "B", agent_id := "agent1", depends_on := ["A"] }

/-- Initial state of the two-task scenario: A and B queued, nothing
completed. -/
def stateC1 : OrchestratorState :=
  { tasks := [("A", taskA1), ("B", taskB1)], completed_tasks := [] }

theorem hasOrchestratorModuleGlobal_Task :
    hasOrchestratorModuleGlobal "Task" = false := rfl

theorem dispatchTask_nameError (s : OrchestratorState)
    (runTask : Nat → Except PyError TaskResult) (t : TaskDependency) :
    dispatchTask s runTask t = Except.error PyError.nameError := rfl

/-- Counterexample to claim C3's consequence: at the concrete two-task
state, A is the single ready task and its agent is registered, yet the
`process_tasks` pass aborts with `NameError` at the `Task(...)`
construction — no dispatched task takes the exception branch or ends
with status `"failed"` and `error_type` `"processing_error"`, and
`completed_tasks` is never written. -/
theorem claim_c3_counterexample :
    getReadyTasks stateC1 = [taskA1] ∧
    (["agent1"].contains taskA1.agent_id) = true ∧
    hasOrchestratorModuleGlobal "Task" = false ∧
    processReadyPass ["agent1"] runTransient stateC1 =
      Except.error PyError.nameError := by
  refine ⟨by decide, by decide, rfl, rfl⟩

theorem foldlM_known_agent_error (agents : List String)
    (runTask : Nat → Except PyError TaskResult) (l : List TaskDependency) :
    ∀ acc : OrchestratorState,
      (∃ t ∈ l, agents.contains t.agent_id = true) →
      l.foldlM
        (fun acc t =>
          if agents.contains t.agent_id then dispatchTask acc runTask t
          else Except.ok acc) acc = Except.error PyError.nameError := by
  induction l with
  | nil =>
    intro acc h
    rcases h with ⟨t, ht, _⟩
    cases ht
  | cons u l ih =>
    intro acc h
    rw [List.foldlM_cons]
    by_cases hu : agents.contains u.agent_id = true
    · rw [if_pos hu, dispatchTask_nameError]
      rfl
    · rw [if_neg hu]
      rcases h with ⟨t, ht, hknown⟩
      have htl : t ∈ l := by
        rcases List.mem_cons.mp ht with rfl | h'
        · exact absurd hknown hu
        · exact h'
      simpa using ih acc ⟨t, htl, hknown⟩

/-- Claim C3 as amended: every direct call of `_execute_task_with_retry`
raises `AttributeError` — `_get_retry_strategy` and `_get_retry_count`
are defined nowhere in the class or module — but `process_tasks` never
reaches that call: `Task` is bound only under `if TYPE_CHECKING:`, so
for any state with a ready task whose agent is registered the pass
raises an uncaught `NameError` at the `Task(...)` construction
(line 341, before the `try`); the success, retry and
`"failed"`/`"processing_error"` outcomes of the dispatch are all
unreachable through `process_tasks`, and dispatched tasks keep their
previous status. -/
theorem claim_c3_amended (agentId : String)
    (runTask : Nat → Except PyError TaskResult) (attempt : Nat)
    (s : OrchestratorState) (agents : List String) (t : TaskDependency)
    (hready : t ∈ getReadyTasks s)
    (hknown : agents.contains t.agent_id = true) :
    hasOrchestratorAttr "_get_retry_strategy" = false ∧
    hasOrchestratorAttr "_get_retry_count" = false ∧
    executeTaskWithRetry agentId runTask attempt =
      Except.error PyError.attributeError ∧
    hasOrchestratorModuleGlobal "Task" = false ∧
    processReadyPass agents runTask s = Except.error PyError.nameError := by
  refine ⟨rfl, rfl, executeTaskWithRetry_attributeError _ _ _, rfl, ?_⟩
  exact foldlM_known_agent_error agents runTask (getReadyTasks s) s
    ⟨t, hready, hknown⟩

/-- Witness for the amended claim C3 at the concrete two-task state with
registry `["agent1"]`. -/
theorem claim_c3_witness :
    hasOrchestratorAttr "_get_retry_strategy" = false ∧
    hasOrchestratorAttr "_get_retry_count" = false ∧
    executeTaskWithRetry "agent1" runTransient 1 =
      Except.error PyError.attributeError ∧
    hasOrchestratorModuleGlobal "Task" = false ∧
    processReadyPass ["agent1"] runTransient stateC1 =
      Except.error PyError.nameError :=
  claim_c3_amended "agent1" runTransient 1 stateC1 ["agent1"] taskA1
    (by decide) (by decide)

/-- A task record as the failure branch of `process_tasks` would store
it: A with status `"failed"` in the completed partition. -/
def taskA1failed : TaskDependency := { taskA1 with status := "failed" }

/-- A state realizing claim C1's antecedent "A is marked terminally
failed": A recorded with status `"failed"` under its id in
`completed_tasks`, B still pending in `tasks`.  The state is given
directly: the runtime loop cannot populate `completed_tasks` at all,
because the dispatch aborts with `NameError` first. -/
def stateC1after : OrchestratorState :=
  { tasks := [("B", taskB1)], completed_tasks := [("A", taskA1failed)] }

/-- Counterexample to claim C1: at a state where B's only dependency A
is recorded terminally failed, `_get_ready_tasks` returns `[B]`, and B
is not Blocked — its status is still `"pending"` (the code defines no
Blocked status) — so B is neither blocked nor excluded from the ready
list. -/
theorem claim_c1_counterexample :
    (dictGet stateC1after.completed_tasks "A").map (fun u => u.status) =
      some "failed" ∧
    taskB1.depends_on = ["A"] ∧
    getReadyTasks stateC1after = [taskB1] ∧
    taskB1.status = "pending" := by
  refine ⟨by decide, rfl, by decide, rfl⟩

/-- Claim C1 as amended: the code defines no Blocked status or
transition — a pending task keeps status `"pending"` — and
`_get_ready_tasks` returns any pending task whose dependency id is a key
of `completed_tasks`, regardless of that dependency's recorded terminal
failure; at runtime `process_tasks` cannot even record a failure,
because the `Task(...)` construction raises an uncaught `NameError` (the
name is TYPE_CHECKING-only), so no task is ever moved into
`completed_tasks` by the loop. -/
theorem claim_c1_amended (s : OrchestratorState) (aId : String)
    (fa b : TaskDependency)
    (hmem : (b.task_id, b) ∈ s.tasks)
    (hpend : b.status = "pending")
    (hdep : b.depends_on = [aId])
    (hfa : dictGet s.completed_tasks aId = some fa)
    (hfst : fa.status = "failed") :
    b ∈ getReadyTasks s ∧
    (dictGet s.completed_tasks aId).map (fun u => u.status) =
      some "failed" ∧
    hasOrchestratorModuleGlobal "Task" = false := by
  refine ⟨?_, by rw [hfa, Option.map_some', hfst], rfl⟩
  have hcont : dictContains s.completed_tasks aId = true := by
    rw [dictContains_eq_isSome, hfa]
    rfl
  simp only [getReadyTasks, dictValues, List.mem_filter, List.mem_map]
  refine ⟨⟨(b.task_id, b), hmem, rfl⟩, ?_⟩
  simp [hpend, hdep, hcont]

/-- Witness for the amended claim C1 at the concrete failed-dependency
state. -/
theorem claim_c1_witness :
    taskB1 ∈ getReadyTasks stateC1after ∧
    (dictGet stateC1after.completed_tasks "A").map (fun u => u.status) =
      some "failed" ∧
    hasOrchestratorModuleGlobal "Task" = false :=
  claim_c1_amended stateC1after "A" taskA1failed taskB1 (by decide) rfl rfl
    (by decide) rfl

/-- A queued task whose `agent_id` is not registered. -/
def taskGhost : TaskDependency := { task_id := "T", agent_id := "ghost" }

/-- State holding only the unknown-agent task. -/
def stateC5 : OrchestratorState :=
  { tasks := [("T", taskGhost)], completed_tasks := [] }

/-- Counterexample to claim C5: with the agent registry `["real"]`, a
full `process_tasks` pass over `stateC5` completes without error and
leaves the state unchanged — the unknown-agent task T is skipped by
`continue` (lines 337-339, before the `Task` construction), keeps status
`"pending"` and never reaches any failed state. -/
theorem claim_c5_counterexample :
    processReadyPass ["real"] runTransient stateC5 = Except.ok stateC5 ∧
    (dictGet stateC5.tasks "T").map (fun u => u.status) = some "pending" ∧
    stateC5.completed_tasks = [] := by
  refine ⟨rfl, by decide, rfl⟩

theorem foldlM_skip_unknown (agents : List String)
    (runTask : Nat → Except PyError TaskResult) (l : List TaskDependency) :
    ∀ acc : OrchestratorState,
      (∀ t ∈ l, agents.contains t.agent_id = false) →
      l.foldlM
        (fun acc t =>
          if agents.contains t.agent_id then dispatchTask acc runTask t
          else Except.ok acc) acc = Except.ok acc := by
  induction l with
  | nil => intro acc _; rfl
  | cons u l ih =>
    intro acc h
    have hu : agents.contains u.agent_id = false := h u (by simp)
    have hun : ¬ (agents.contains u.agent_id = true) := by
      rw [hu]
      exact Bool.false_ne_true
    rw [List.foldlM_cons, if_neg hun]
    simpa using ih acc (fun v hv => h v (by simp [hv]))

/-- Claim C5 as amended: a ready task whose `agent_id` is not in the
agent registry is skipped (`continue`) by the dispatch loop before the
`Task` construction, so when no ready task has a registered agent every
`process_tasks` pass completes and returns the state unchanged — such a
task stays `"pending"` indefinitely and never reaches a failed state. -/
theorem claim_c5_amended (agents : List String)
    (runTask : Nat → Except PyError TaskResult) (s : OrchestratorState)
    (h : ∀ t ∈ getReadyTasks s, agents.contains t.agent_id = false) :
    processReadyPass agents runTask s = Except.ok s ∧
    ∀ n : Nat, processReadyPassIter agents runTask n s = Except.ok s := by
  have hfix : processReadyPass agents runTask s = Except.ok s :=
    foldlM_skip_unknown agents runTask (getReadyTasks s) s h
  refine ⟨hfix, ?_⟩
  intro n
  induction n with
  | zero => rfl
  | succ n ih => simp [processReadyPassIter, hfix, ih]

/-- Witness for the amended claim C5: one pass and three iterated passes
over the unknown-agent state change nothing. -/
theorem claim_c5_witness :
    processReadyPass ["real"] runTransient stateC5 = Except.ok stateC5 ∧
    processReadyPassIter ["real"] runTransient 3 stateC5 =
      Except.ok stateC5 :=
  ⟨(claim_c5_amended ["real"] runTransient stateC5 (by decide)).1,
   (claim_c5_amended ["real"] runTransient stateC5 (by decide)).2 3⟩

/-! ### Ready-set ordering and dependency semantics (claim C8) -/

/-- Follows the spec's words (not the source): the rank of a `priority`
metadata value, for checking "ordered by descending priority then by
insertion order". -/
def specPriorityRank : String → Nat
  | "CRITICAL" => 4
  | "HIGH" => 3
  | "MEDIUM" => 2
  | "LOW" => 1
  | _ => 0

/-- Follows the spec's words (not the source): a task list is ordered by
descending priority metadata when adjacent tasks have non-increasing
priority rank. -/
def specDescendingPriority : List TaskDependency → Bool
  | [] => true
  | [_] => true
  | x :: y :: rest =>
    (specPriorityRank y.metadata.priority ≤
      specPriorityRank x.metadata.priority) &&
    specDescendingPriority (y :: rest)

/-- A low-priority pending task inserted first. -/
def taskLow : TaskDependency :=
  { task_id := "L", agent_id := "agent1",
    metadata := { priority := "LOW" } }

/-- A high-priority pending task inserted second. -/
def taskHigh : TaskDependency :=
  { task_id := "H", agent_id := "agent1",
    metadata := { priority := "HIGH" } }

/-- A pending task depending on the terminally failed task F. -/
def taskD8 : TaskDependency :=
  { task_id := "D", agent_id := "agent1", depends_on := ["F"] }

/-- A terminally failed task sitting in the completed partition. -/
def taskF8 : TaskDependency :=
  { task_id := "F", agent_id := "agent1", status := "failed" }

/-- State for the ordering counterexample. -/
def stateC8 : OrchestratorState :=
  { tasks := [("L", taskLow), ("H", taskHigh), ("D", taskD8)],
    completed_tasks := [("F", taskF8)] }

/-- Counterexample to claim C8: `_get_ready_tasks` returns the pending
tasks in dict insertion order `[L, H, D]`, which is not ordered by
descending priority (`H` outranks `L` yet follows it), and it includes
`D` although D's only dependency F has status `"failed"`, not Completed —
the computation checks key membership in `completed_tasks` only and never
consults priority. -/
theorem claim_c8_counterexample :
    getReadyTasks stateC8 = [taskLow, taskHigh, taskD8] ∧
    specDescendingPriority (getReadyTasks stateC8) = false ∧
    specPriorityRank taskLow.metadata.priority <
      specPriorityRank taskHigh.metadata.priority ∧
    (dictGet stateC8.completed_tasks "F").map (fun u => u.status) =
      some "failed" ∧
    taskD8.depends_on = ["F"] := by
  refine ⟨by decide, by decide, by decide, by decide, rfl⟩

/-- Claim C8 as amended: `_get_ready_tasks` returns exactly the tasks
with status `"pending"` whose every dependency id is a key of
`completed_tasks` (whether that dependency completed or failed), in dict
insertion order (a sublist of `tasks.values()`); priority metadata is not
consulted. -/
theorem claim_c8_amended (s : OrchestratorState) :
    (getReadyTasks s).Sublist (dictValues s.tasks) ∧
    ∀ t : TaskDependency,
      (t ∈ getReadyTasks s ↔
        t ∈ dictValues s.tasks ∧ t.status = "pending" ∧
          ∀ d ∈ t.depends_on, dictContains s.completed_tasks d = true) := by
  constructor
  · exact List.filter_sublist _
  · intro t
    simp [getReadyTasks, List.mem_filter, List.all_eq_true, and_assoc]

/-- Witness for the amended claim C8 at the concrete ordering state. -/
theorem claim_c8_witness :
    taskD8 ∈ getReadyTasks stateC8 ↔
      taskD8 ∈ dictValues stateC8.tasks ∧ taskD8.status = "pending" ∧
        ∀ d ∈ taskD8.depends_on,
          dictContains stateC8.completed_tasks d = true :=
  (claim_c8_amended stateC8).2 taskD8


/-! ### Critical path (claim C4) -/

/-- Task A of the critical-path scenario: complexity 2, so estimated
duration 2 with an empty throughput history. -/
def taskA4 : TaskDependency :=
  { task_id := "A", agent_id := "agent1",
    metadata := { complexity := some 2 } }

/-- Task B of the critical-path scenario: depends on A, complexity 3. -/
def taskB4 : TaskDependency :=
  { task_id := "B", agent_id := "agent1", depends_on := ["A"],
    metadata := { complexity := some 3 } }

/-- Task C of the critical-path scenario: depends on A, complexity 1. -/
def taskC4 : TaskDependency :=
  { task_id := "C", agent_id := "agent1", depends_on := ["A"],
    metadata := { complexity := some 1 } }

/-- The critical-path scenario queue in insertion order. -/
def queueC4 : List TaskDependency := [taskA4, taskB4, taskC4]

theorem computeEarliest_queueC4 :
    computeEarliest [] queueC4 = [("A", 2), ("B", 5), ("C", 3)] := by
  simp [computeEarliest, queueC4, estimateTaskDuration, taskA4, taskB4,
    taskC4, dictGet, dictSet, dictContains, replaceKey, initThroughput,
    pyMax, pyMax2, List.find?]
  norm_num

theorem findCriticalPath_queueC4 : findCriticalPath [] queueC4 = ["B"] := by
  have hf : (some ((2 : ℚ)) == some ((5 : ℚ))) = false := by norm_num
  have hg : (some ((3 : ℚ)) == some ((5 : ℚ))) = false := by norm_num
  have ht : (some ((5 : ℚ)) == some ((5 : ℚ))) = true := by norm_num
  have hmax :
      pyMax (dictValues [(("A" : String), (2 : ℚ)), ("B", 5), ("C", 3)]) = 5 := by
    simp [dictValues, pyMax, pyMax2]
    norm_num
  have hsAB : (("A" : String) == "B") = false := by decide
  have hsBB : (("B" : String) == "B") = true := by decide
  have hsCB : (("C" : String) == "B") = false := by decide
  have hsAC : (("A" : String) == "C") = false := by decide
  have hsBC : (("B" : String) == "C") = false := by decide
  have hsCC : (("C" : String) == "C") = true := by decide
  have hsAA : (("A" : String) == "A") = true := by decide
  simp only [findCriticalPath, computeEarliest_queueC4, hmax]
  simp only [queueC4, List.filter_cons, List.filter_nil, taskA4, taskB4,
    taskC4]
  simp only [dictGet, List.find?, hsAB, hsBB, hsCB, hsAC, hsBC, hsCC, hsAA]
  norm_num [ht, hf, hg]

/-- Counterexample to claim C4: with estimated durations A = 2, B = 3,
C = 1, `_find_critical_path` returns `["B"]` — only the task whose
earliest-completion value ties the global maximum — not the chain
`["A", "B"]`; no backward walk over dependencies happens. -/
theorem claim_c4_counterexample :
    estimateTaskDuration [] taskA4 = 2 ∧
    estimateTaskDuration [] taskB4 = 3 ∧
    estimateTaskDuration [] taskC4 = 1 ∧
    findCriticalPath [] queueC4 = ["B"] ∧
    findCriticalPath [] queueC4 ≠ ["A", "B"] := by
  refine ⟨?_, ?_, ?_, findCriticalPath_queueC4, ?_⟩
  · norm_num [estimateTaskDuration, taskA4, dictGet, initThroughput]
  · norm_num [estimateTaskDuration, taskB4, dictGet, initThroughput]
  · norm_num [estimateTaskDuration, taskC4, dictGet, initThroughput]
  · rw [findCriticalPath_queueC4]
    decide

/-- Claim C4 as amended: on the scenario graph the computation assigns
earliest-completion values A = 2, B = 5, C = 3 and returns the set of
tasks achieving the maximum value 5, namely `["B"]` (whose earliest value
5 is the total duration of the chain A→B); it does not reconstruct the
chain. -/
theorem claim_c4_amended :
    computeEarliest [] queueC4 = [("A", 2), ("B", 5), ("C", 3)] ∧
    pyMax (dictValues (computeEarliest [] queueC4)) = 5 ∧
    findCriticalPath [] queueC4 = ["B"] := by
  refine ⟨computeEarliest_queueC4, ?_, findCriticalPath_queueC4⟩
  rw [computeEarliest_queueC4]
  simp [dictValues, pyMax, pyMax2]
  norm_num

/-! ### Milestone delay handling (claim C6) -/

/-- The claim C6 scenario: a milestone with 4 member tasks of which
exactly 1 is completed, whose estimated completion (timestamp 0) lies in
the past relative to `now = 1`. -/
def milestoneC6 : MilestoneStatus :=
  { milestone_id := "m1", estimated_completion := 0,
    status := "in_progress",
    tasks := [{ task_id := "t1", completed := true },
              { task_id := "t2", completed := false },
              { task_id := "t3", completed := false },
              { task_id := "t4", completed := false }] }

/-- Claim C6 evaluated on the code: the update takes the delay branch
(progress 25 < 50 and the estimated completion is past), whose handler
sets status `"delayed"` but never assigns `delay_reason`; the update then
overwrites the status with `"in_progress"` because progress 25 > 0, so
the milestone ends the update with status `"in_progress"` and
`delay_reason = none` — not Delayed with a non-empty reason. -/
theorem claim_c6 :
    (updateMilestoneProgress milestoneC6 1).progress = 25 ∧
    (handleMilestoneDelay milestoneC6
        "Tasks taking longer than estimated").status = "delayed" ∧
    (handleMilestoneDelay milestoneC6
        "Tasks taking longer than estimated").delay_reason = none ∧
    (updateMilestoneProgress milestoneC6 1).status = "in_progress" ∧
    (updateMilestoneProgress milestoneC6 1).delay_reason = none := by
  refine ⟨?_, rfl, rfl, ?_, ?_⟩
  all_goals simp [updateMilestoneProgress, handleMilestoneDelay, milestoneC6]
  all_goals norm_num
